import Mathlib

/-!
Shallow embedding of `controllers/authenticationController.js` of the
E-commerce-system backend: signup, login, route protection, and the
password-reset / password-update flows, together with theorems checking the
natural-language specification against the code.

External collaborators (the JSON-web-token library, the bcrypt comparison,
the sha256 hash, randomness, the mail transport) are passed in as explicit
function or value parameters; code of the repository that lives outside the
controller (the Mongoose `User` model methods and the Joi validator) is
modelled from the specification and marked as such in its doc comment.
-/

namespace Auth

/-- Postal address carried in the signup body (opaque to the controller). -/
structure Address where
  country : String
  city : String
  street : String
  zip : String
deriving Repr, DecidableEq

/-- A persisted user record. `password` holds the stored password hash; it is
an `Option` because Mongoose projects it out unless selected, and because
`createAndSendToken` clears it on the outward representation. The reset
fields mirror `passwordResetToken` (hash of the plaintext reset token) and
`passwordResetExpires`. -/
structure User where
  id : Nat
  name : String
  email : String
  phone : String
  password : Option String
  role : String
  photo : String
  passwordChangedAt : Option Nat
  passwordResetToken : Option Nat
  passwordResetExpires : Option Nat
deriving Repr, DecidableEq

/-- An `AppError(message, statusCode)` handed to `next`. -/
structure AppError where
  message : String
  statusCode : Nat
deriving Repr, DecidableEq

/-- Payload of a decoded session token: `{ id }` plus the `iat` issued-at
stamp the jwt library adds at signing time. -/
structure JwtPayload where
  id : Nat
  iat : Nat
deriving Repr, DecidableEq

/-- The success envelope emitted by `createAndSendToken`:
status code, body `status` / `token` / `data.user`, and the `jwt` cookie. -/
structure AuthResponse where
  statusCode : Nat
  status : String
  token : String
  user : User
  cookieJwt : String
deriving Repr, DecidableEq

/-- The success envelope of `forgotPassword`: the body also echoes the
plaintext reset token. -/
structure ForgotResponse where
  statusCode : Nat
  status : String
  message : String
  resetToken : Nat
deriving Repr, DecidableEq

/-- The signup request body (`req.body` as destructured by the controller). -/
structure SignupBody where
  name : String
  email : String
  password : String
  passwordConfirm : String
  role : String
  photo : String
  phone : String
  address : Address
deriving Repr, DecidableEq

/-- HTTP request as far as `protect` reads it: the `authorization` header
and the `jwt` cookie. -/
structure ReqHeaders where
  authorization : Option String
deriving Repr, DecidableEq

structure ReqCookies where
  jwt : Option String
deriving Repr, DecidableEq

structure HttpRequest where
  headers : ReqHeaders
  cookies : ReqCookies
deriving Repr, DecidableEq

/-- JavaScript truthiness of an optional string: `undefined` and the empty
string are falsy. -/
def jsTruthyOptStr : Option String → Bool
  | none => false
  | some s => !(s == "")

/-- A JavaScript promise object. Awaiting it yields `resolved`. -/
structure JsPromise (α : Type) where
  resolved : α
deriving Repr, DecidableEq

/-- A promise object, like every JavaScript object, is truthy no matter what
value it will resolve to. -/
def JsPromise.jsTruthy {α : Type} (_ : JsPromise α) : Bool := true

/-- Modelled from the spec: the `User` model (absent from the sources, which
hold only the controller) provides `correctPassword`, the constant-time
password comparison of the login design, delegated to the asynchronous
hashing library — so a call returns a promise of the comparison result,
which the controller awaits at login. `cmp` stands for the library
comparison of a candidate password against a stored hash. -/
def correctPassword (cmp : String → String → Bool) (candidate storedHash : String) :
    JsPromise Bool :=
  ⟨cmp candidate storedHash⟩

/-- Modelled from the spec: the `User` model method `changedPasswordAfter`
implements the freshness check — true exactly when `passwordChangedAt` is
later than the token issuance stamp (`issuedAt < passwordChangedAt`); a user
who never changed the password yields false. -/
def changedPasswordAfter (u : User) (jwtTimestamp : Nat) : Bool :=
  match u.passwordChangedAt with
  | some changedAt => decide (jwtTimestamp < changedAt)
  | none => false

/-- Mongoose `doc.save()` on a fetched-and-mutated document: the record with
the document id is replaced in the collection. -/
def saveUser (store : List User) (u : User) : List User :=
  store.map (fun v => if v.id == u.id then u else v)

/-- `User.findById`. -/
def findById (store : List User) (id : Nat) : Option User :=
  store.find? (fun u => u.id == id)

/-- `User.findOne({ email })`. -/
def findByEmail (store : List User) (email : String) : Option User :=
  store.find? (fun u => u.email == email)

/-- `createAndSendToken(user, statusCode, res)`: signs a token for
`user._id`, sets it as the `jwt` cookie, clears the outward `password`
field, and emits `{ status: success, token, data: { user } }`. -/
def createAndSendToken (sign : Nat → String) (user : User) (statusCode : Nat) :
    AuthResponse :=
  let token := sign user.id
  { statusCode := statusCode
    status := "success"
    token := token
    user := { user with password := none }
    cookieJwt := token }

/-- Modelled from the spec: the `UserStore` creates the user from the fields
the controller passes through, hashing the password (`phash`) and enforcing
email uniqueness; `passwordConfirm` is transient and never persisted. -/
def createUser (phash : String → String) (store : List User) (body : SignupBody) :
    Except AppError (List User × User) :=
  if store.any (fun u => u.email == body.email) then
    Except.error ⟨"duplicate email", 500⟩
  else
    let newUser : User :=
      { id := store.length
        name := body.name
        email := body.email
        phone := body.phone
        password := some (phash body.password)
        role := body.role
        photo := body.photo
        passwordChangedAt := none
        passwordResetToken := none
        passwordResetExpires := none }
    Except.ok (store ++ [newUser], newUser)

/-- `signup`: validate the body with the Joi schema (`validate` returns the
error message when the body is rejected); on rejection, fail with 400 before
touching the store; otherwise create the user and send a 201 envelope. -/
def signup (validate : SignupBody → Option String) (phash : String → String)
    (sign : Nat → String) (store : List User) (body : SignupBody) :
    List User × Except AppError AuthResponse :=
  match validate body with
  | some msg => (store, Except.error ⟨msg, 400⟩)
  | none =>
    match createUser phash store body with
    | Except.error e => (store, Except.error e)
    | Except.ok (store1, newUser) =>
      (store1, Except.ok (createAndSendToken sign newUser 201))

/-- `login`: 400 when either credential is falsy; look the user up by email
with the password hash selected; the same 401 error when the user is absent
or the awaited password comparison fails; otherwise a 200 envelope. -/
def login (cmp : String → String → Bool) (sign : Nat → String)
    (store : List User) (email password : String) :
    Except AppError AuthResponse :=
  if email == "" || password == "" then
    Except.error ⟨"please provide email and password!", 400⟩
  else
    match findByEmail store email with
    | none => Except.error ⟨"InCorrect Email or Password!", 401⟩
    | some user =>
      if !(correctPassword cmp password (user.password.getD "")).resolved then
        Except.error ⟨"InCorrect Email or Password!", 401⟩
      else
        Except.ok (createAndSendToken sign user 200)

/-- JavaScript `string.split(' ')` on the character list: every single
space starts a new chunk, and the result is never empty. -/
def splitSpaceChars : List Char → List (List Char)
  | [] => [[]]
  | c :: rest =>
    match splitSpaceChars rest with
    | [] => [[]]
    | w :: ws => if c = ' ' then [] :: w :: ws else (c :: w) :: ws

/-- JavaScript `string.split(' ')`. -/
def jsSplitSpace (s : String) : List String :=
  (splitSpaceChars s.data).map (fun cs => String.mk cs)

/-- JavaScript `string.startsWith(pre)`. -/
def strStartsWith (s pre : String) : Bool :=
  pre.data.isPrefixOf s.data

/-- Token extraction of `protect`: when the `authorization` header is truthy
and starts with Bearer, take the part after the first space (absent when the
header has no second part); only otherwise fall back to a truthy `jwt`
cookie. -/
def extractToken (req : HttpRequest) : Option String :=
  if jsTruthyOptStr req.headers.authorization
      && strStartsWith (req.headers.authorization.getD "") "Bearer" then
    (jsSplitSpace (req.headers.authorization.getD "")).get? 1
  else if jsTruthyOptStr req.cookies.jwt then
    req.cookies.jwt
  else
    none

/-- `protect`: extract the token, 401 when none; verify it (`verify` stands
for `promisify(jwt.verify)(token, secret)`, whose failure propagates as a
401-equivalent verification error); 401 when the decoded user no longer
exists; 401 when the password changed after issuance; otherwise attach and
return the user. -/
def protect (verify : String → Except String JwtPayload) (store : List User)
    (req : HttpRequest) : Except AppError User :=
  let token := extractToken req
  if !(jsTruthyOptStr token) then
    Except.error ⟨"You are not logged in! Please Login to get access", 401⟩
  else
    match verify (token.getD "") with
    | Except.error e => Except.error ⟨e, 401⟩
    | Except.ok decoded =>
      match findById store decoded.id with
      | none =>
        Except.error ⟨"The user belonging to this token no longer exists.", 401⟩
      | some currentUser =>
        if changedPasswordAfter currentUser decoded.iat then
          Except.error ⟨"User Recently Changed the Password, Please Login Again", 401⟩
        else
          Except.ok currentUser

/-- Modelled from the spec: the `User` model method
`createPasswordResetToken` draws a cryptographically random token (passed in
as `randToken`, randomness being external), stores only its hash on the user
together with a ten-minute expiry, and returns the plaintext. -/
def createPasswordResetToken (hashTok : Nat → Nat) (now randToken : Nat) (u : User) :
    Nat × User :=
  (randToken,
    { u with
        passwordResetToken := some (hashTok randToken)
        passwordResetExpires := some (now + 10 * 60 * 1000) })

/-- `forgotPassword`: 404 when the email matches no user; otherwise store
the hashed reset token and expiry (saved without validation), then attempt
email delivery (`emailDelivers`): on success respond 200 echoing the
plaintext token, on failure clear both reset fields, save again and fail
with 500. -/
def forgotPassword (hashTok : Nat → Nat) (randToken : Nat) (emailDelivers : Bool)
    (now : Nat) (store : List User) (email : String) :
    List User × Except AppError ForgotResponse :=
  match findByEmail store email with
  | none =>
    (store, Except.error ⟨"Please provide a valid email for resetting your password", 404⟩)
  | some user =>
    let (resetToken, user1) := createPasswordResetToken hashTok now randToken user
    let store1 := saveUser store user1
    if emailDelivers then
      (store1, Except.ok ⟨200, "success", "token sent to email", resetToken⟩)
    else
      let user2 := { user1 with passwordResetToken := none, passwordResetExpires := none }
      (saveUser store1 user2,
        Except.error ⟨"There was an Error Sending the email, try again later", 500⟩)

/-- The query predicate of `resetPassword`:
`{ passwordResetToken: hashedToken, passwordResetExpires: { $gt: Date.now() } }`. -/
def resetQueryMatch (hashedToken now : Nat) (u : User) : Bool :=
  u.passwordResetToken == some hashedToken
    && (match u.passwordResetExpires with
        | some e => decide (now < e)
        | none => false)

/-- `resetPassword`: hash the supplied plaintext token, find a user whose
stored hash matches and whose expiry is still in the future; 400 when none;
otherwise set the new password, clear both reset fields, save (the store
layer re-hashes and stamps `passwordChangedAt`), and send a 200 envelope.
`passwordConfirm` is set on the document but, the save skipping validation,
never persisted. -/
def resetPassword (hashTok : Nat → Nat) (phash : String → String)
    (sign : Nat → String) (now : Nat) (store : List User)
    (tokenParam : Nat) (password _passwordConfirm : String) :
    List User × Except AppError AuthResponse :=
  let hashedToken := hashTok tokenParam
  match store.find? (resetQueryMatch hashedToken now) with
  | none => (store, Except.error ⟨"Token is invalid or has expired", 400⟩)
  | some user =>
    let user1 :=
      { user with
          password := some (phash password)
          passwordChangedAt := some now
          passwordResetToken := none
          passwordResetExpires := none }
    (saveUser store user1, Except.ok (createAndSendToken sign user1 200))

/-- `updatePassword`: fetch the authenticated user with the password hash
selected; check the posted current password — the controller does NOT await
`user.correctPassword(...)` here, so the condition tests the truthiness of
the promise object itself; on "success" set the new password, save (the
store layer re-hashes and stamps `passwordChangedAt`) and send a 200
envelope. -/
def updatePassword (phash : String → String) (cmp : String → String → Bool)
    (sign : Nat → String) (now : Nat) (store : List User) (reqUserId : Nat)
    (passwordCurrent password _passwordConfirm : String) :
    List User × Except AppError AuthResponse :=
  match findById store reqUserId with
  | none => (store, Except.error ⟨"No user found", 400⟩)
  | some user =>
    if !(correctPassword cmp passwordCurrent (user.password.getD "")).jsTruthy then
      (store, Except.error ⟨"Password provided is incorrect", 400⟩)
    else
      let user1 := { user with password := some (phash password), passwordChangedAt := some now }
      (saveUser store user1, Except.ok (createAndSendToken sign user1 200))

/-- A concrete user shared by the evaluation theorems below. -/
def demoUser : User :=
  { id := 1
    name := "A"
    email := "a@b.com"
    phone := "1"
    password := some "secret123"
    role := "user"
    photo := "p"
    passwordChangedAt := none
    passwordResetToken := none
    passwordResetExpires := none }

/-- A concrete signup body shared by the evaluation theorems below. -/
def demoBody : SignupBody :=
  { name := "A"
    email := "a@b.com"
    password := "secret123"
    passwordConfirm := "secret123"
    role := "user"
    photo := "p"
    phone := "1"
    address := { country := "X", city := "Y", street := "Z", zip := "0" } }

/-- C8: a signup body rejected by the validation schema fails with the
error message at status 400 and leaves the store untouched: no user is
created and no token envelope is produced. -/
theorem signup_validation_short_circuits (validate : SignupBody → Option String)
    (phash : String → String) (sign : Nat → String) (store : List User)
    (body : SignupBody) (msg : String) (hVal : validate body = some msg) :
    signup validate phash sign store body = (store, Except.error ⟨msg, 400⟩) := by
  simp [signup, hVal]

theorem signup_validation_short_circuits_witness :
    (fun (_ : SignupBody) => some "password length below 8") demoBody
        = some "password length below 8"
      ∧ signup (fun _ => some "password length below 8") (fun s => s)
          (fun _ => "tok") [demoUser] demoBody
        = ([demoUser], Except.error ⟨"password length below 8", 400⟩) :=
  ⟨rfl,
    signup_validation_short_circuits (fun _ => some "password length below 8")
      (fun s => s) (fun _ => "tok") [demoUser] demoBody
      "password length below 8" rfl⟩

/-- C10: a signup body that passes validation (and collides with no stored
email) creates the user with exactly the role the client supplied — the
controller forwards `role` unmodified and restricts nothing. -/
theorem signup_forwards_role (validate : SignupBody → Option String)
    (phash : String → String) (sign : Nat → String) (store : List User)
    (body : SignupBody) (hVal : validate body = none)
    (hUniq : store.any (fun u => u.email == body.email) = false) :
    ∃ nu : User,
      signup validate phash sign store body
          = (store ++ [nu], Except.ok (createAndSendToken sign nu 201))
        ∧ nu.role = body.role := by
  refine ⟨{ id := store.length, name := body.name, email := body.email,
            phone := body.phone, password := some (phash body.password),
            role := body.role, photo := body.photo, passwordChangedAt := none,
            passwordResetToken := none, passwordResetExpires := none }, ?_, rfl⟩
  simp [signup, hVal, createUser, hUniq]

theorem signup_forwards_role_witness :
    (fun (_ : SignupBody) => (none : Option String)) { demoBody with role := "admin" } = none
      ∧ ([] : List User).any (fun u => u.email == ({ demoBody with role := "admin" }).email) = false
      ∧ ∃ nu : User,
          signup (fun _ => none) (fun s => s) (fun _ => "tok") []
              { demoBody with role := "admin" }
            = ([] ++ [nu], Except.ok (createAndSendToken (fun _ => "tok") nu 201))
          ∧ nu.role = ({ demoBody with role := "admin" }).role :=
  ⟨rfl, rfl,
    signup_forwards_role (fun _ => none) (fun s => s) (fun _ => "tok") []
      { demoBody with role := "admin" } rfl rfl⟩

/-- C3: login with an email absent from the store and login with a present
email but a failing password comparison produce the identical error — the
same message and the same 401 status in both runs. -/
theorem login_enumeration_resistance (cmp : String → String → Bool)
    (sign : Nat → String) (store : List User) (email1 pw1 email2 pw2 : String)
    (user2 : User)
    (h1e : (email1 == "") = false) (h1p : (pw1 == "") = false)
    (h2e : (email2 == "") = false) (h2p : (pw2 == "") = false)
    (hAbsent : findByEmail store email1 = none)
    (hFound : findByEmail store email2 = some user2)
    (hWrong : cmp pw2 (user2.password.getD "") = false) :
    login cmp sign store email1 pw1 = Except.error ⟨"InCorrect Email or Password!", 401⟩
      ∧ login cmp sign store email2 pw2
        = Except.error ⟨"InCorrect Email or Password!", 401⟩ := by
  constructor
  · simp [login, h1e, h1p, hAbsent]
  · simp [login, h2e, h2p, hFound, correctPassword, hWrong]

theorem login_enumeration_resistance_witness :
    findByEmail [demoUser] "nobody@b.com" = none
      ∧ findByEmail [demoUser] "a@b.com" = some demoUser
      ∧ (fun a b => a == b) "wrongpass" (demoUser.password.getD "") = false
      ∧ login (fun a b => a == b) (fun _ => "tok") [demoUser] "nobody@b.com" "x"
        = Except.error ⟨"InCorrect Email or Password!", 401⟩
      ∧ login (fun a b => a == b) (fun _ => "tok") [demoUser] "a@b.com" "wrongpass"
        = Except.error ⟨"InCorrect Email or Password!", 401⟩ := by
  refine ⟨by decide, by decide, by decide, ?_⟩
  exact login_enumeration_resistance (fun a b => a == b) (fun _ => "tok")
    [demoUser] "nobody@b.com" "x" "a@b.com" "wrongpass" demoUser
    (by decide) (by decide) (by decide) (by decide) (by decide) (by decide) (by decide)

/-- C1 (code bug): `updatePassword` tests
`!user.correctPassword(req.body.passwordCurrent, user.password)` without
awaiting the promise, and a promise object is truthy, so a current password
that fails the comparison is nevertheless accepted: at this concrete input
the comparison of the supplied current password against the stored hash is
false, yet the operation persists the new password and issues a fresh
envelope instead of failing with the 400 incorrect-password error. -/
theorem updatePassword_accepts_wrong_current_password :
    (fun a b => a == b) "totally wrong" (demoUser.password.getD "") = false
      ∧ updatePassword (fun s => s) (fun a b => a == b) (fun _ => "tok2") 50
          [demoUser] 1 "totally wrong" "newpw" "newpw"
        = ([{ demoUser with password := some "newpw", passwordChangedAt := some 50 }],
            Except.ok (createAndSendToken (fun _ => "tok2")
              { demoUser with password := some "newpw", passwordChangedAt := some 50 } 200)) := by
  constructor
  · decide
  · rfl

/-- C2: when a request carries a token that extracts and decodes to a
payload whose user exists but whose `passwordChangedAt` is later than the
payload's issued-at stamp, `protect` rejects the request with the 401
reauthentication error instead of attaching the user. -/
theorem protect_rejects_stale_token (verify : String → Except String JwtPayload)
    (store : List User) (req : HttpRequest) (t : String) (payload : JwtPayload)
    (user : User) (changedAt : Nat)
    (hTok : extractToken req = some t) (hNe : (t == "") = false)
    (hVer : verify t = Except.ok payload)
    (hFind : findById store payload.id = some user)
    (hChanged : user.passwordChangedAt = some changedAt)
    (hLate : payload.iat < changedAt) :
    protect verify store req
      = Except.error ⟨"User Recently Changed the Password, Please Login Again", 401⟩ := by
  simp [protect, hTok, jsTruthyOptStr, hNe, hVer, hFind, changedPasswordAfter,
    hChanged, hLate]

theorem protect_rejects_stale_token_witness :
    extractToken ⟨⟨some "Bearer T"⟩, ⟨none⟩⟩ = some "T"
      ∧ ((fun (_ : String) => (Except.ok ⟨1, 5⟩ : Except String JwtPayload)) "T"
          = Except.ok ⟨1, 5⟩)
      ∧ findById [{ demoUser with passwordChangedAt := some 10 }] 1
        = some { demoUser with passwordChangedAt := some 10 }
      ∧ (5 : Nat) < 10
      ∧ protect (fun _ => Except.ok (⟨1, 5⟩ : JwtPayload))
          [{ demoUser with passwordChangedAt := some 10 }] ⟨⟨some "Bearer T"⟩, ⟨none⟩⟩
        = Except.error ⟨"User Recently Changed the Password, Please Login Again", 401⟩ := by
  refine ⟨by decide, rfl, by decide, by decide, ?_⟩
  exact protect_rejects_stale_token
    (fun _ => Except.ok (⟨1, 5⟩ : JwtPayload))
    [{ demoUser with passwordChangedAt := some 10 }] ⟨⟨some "Bearer T"⟩, ⟨none⟩⟩
    "T" ⟨1, 5⟩ { demoUser with passwordChangedAt := some 10 } 10
    (by decide) (by decide) rfl (by decide) (by decide) (by decide)

/-- C9: when the `authorization` header is present and starts with Bearer,
the extracted token is the same whatever the `jwt` cookie holds — the
cookie is never consulted; and when that header has no space-separated
second part, the extracted token is absent and `protect` fails with the 401
not-logged-in error for every verifier and store, rather than with a
signature-verification error. -/
theorem protect_header_precedence (h : String) (c1 c2 : Option String)
    (hB : strStartsWith h "Bearer" = true) :
    extractToken ⟨⟨some h⟩, ⟨c1⟩⟩ = extractToken ⟨⟨some h⟩, ⟨c2⟩⟩
      ∧ ((jsSplitSpace h).get? 1 = none →
          ∀ (verify : String → Except String JwtPayload) (store : List User),
            protect verify store ⟨⟨some h⟩, ⟨c1⟩⟩
              = Except.error ⟨"You are not logged in! Please Login to get access", 401⟩) := by
  have hne : (h == "") = false := by
    rcases Bool.eq_false_or_eq_true (h == "") with ht | hf
    · exfalso
      have hh : h = "" := eq_of_beq ht
      subst hh
      exact absurd hB (by decide)
    · exact hf
  constructor
  · simp [extractToken, jsTruthyOptStr, hne, hB]
  · intro hNo verify store
    simp only [List.get?_eq_getElem?] at hNo
    simp [protect, extractToken, jsTruthyOptStr, hne, hB, hNo]

theorem protect_header_precedence_witness :
    (strStartsWith "Bearer" "Bearer" = true)
      ∧ (jsSplitSpace "Bearer").get? 1 = none
      ∧ extractToken ⟨⟨some "Bearer"⟩, ⟨some "cookietoken"⟩⟩
        = extractToken ⟨⟨some "Bearer"⟩, ⟨none⟩⟩
      ∧ protect (fun _ => Except.error "invalid signature") [demoUser]
          ⟨⟨some "Bearer"⟩, ⟨some "cookietoken"⟩⟩
        = Except.error ⟨"You are not logged in! Please Login to get access", 401⟩ := by
  refine ⟨by decide, by decide, ?_, ?_⟩
  · exact (protect_header_precedence "Bearer" (some "cookietoken") none (by decide)).1
  · exact (protect_header_precedence "Bearer" (some "cookietoken") none (by decide)).2
      (by decide) (fun _ => Except.error "invalid signature") [demoUser]

/-- A user holding an already-expired reset token hash. -/
def demoUserExpired : User :=
  { demoUser with
      id := 1
      passwordResetToken := some 99
      passwordResetExpires := some 5000 }

/-- A second user with no reset token pending. -/
def demoUserSecond : User :=
  { demoUser with id := 2, email := "b@b.com" }

/-- A user with a reset token already pending before any request. -/
def demoUserPendingReset : User :=
  { demoUser with
      passwordResetToken := some 77
      passwordResetExpires := some 999999 }

/-- A member of `saveUser store w` is either the saved document or an
untouched record of the store whose id differs from the saved one. -/
lemma saveUser_mem {store : List User} {w u : User} (hu : u ∈ saveUser store w) :
    u = w ∨ (u ∈ store ∧ u.id ≠ w.id) := by
  simp only [saveUser, List.mem_map] at hu
  obtain ⟨v, hv, hveq⟩ := hu
  by_cases hid : v.id = w.id
  · left
    rw [← hveq]
    simp [hid]
  · right
    have hb : (v.id == w.id) = false := by simp [hid]
    rw [← hveq]
    simp [hb]
    exact ⟨hv, hid⟩

/-- C6: a resetPassword request whose supplied token hashes to a value that,
for every stored user, either matches no stored `passwordResetToken` or
matches only users whose `passwordResetExpires` is not in the future, fails
with the one fixed 400 invalid-or-expired error — the same error for either
failure cause — and returns the store unchanged. -/
theorem resetPassword_invalid_token_uniform_failure (hashTok : Nat → Nat)
    (phash : String → String) (sign : Nat → String) (now : Nat)
    (store : List User) (tokenParam : Nat) (pw pc : String)
    (hNo : ∀ u ∈ store, u.passwordResetToken ≠ some (hashTok tokenParam)
            ∨ ∀ e, u.passwordResetExpires = some e → e ≤ now) :
    resetPassword hashTok phash sign now store tokenParam pw pc
      = (store, Except.error ⟨"Token is invalid or has expired", 400⟩) := by
  have hfind : store.find? (resetQueryMatch (hashTok tokenParam) now) = none := by
    rw [List.find?_eq_none]
    intro u hu hMatch
    simp only [resetQueryMatch, Bool.and_eq_true, beq_iff_eq] at hMatch
    obtain ⟨h1, h2⟩ := hMatch
    rcases hNo u hu with hTok | hExp
    · exact hTok h1
    · cases hE : u.passwordResetExpires with
      | none =>
        rw [hE] at h2
        simp at h2
      | some e =>
        rw [hE] at h2
        simp at h2
        exact absurd h2 (not_lt.mpr (hExp e hE))
  simp [resetPassword, hfind]

theorem resetPassword_invalid_token_uniform_failure_witness :
    (∀ u ∈ [demoUserExpired, demoUserSecond],
        u.passwordResetToken ≠ some ((fun t => t) 7)
          ∨ ∀ e, u.passwordResetExpires = some e → e ≤ 9000)
      ∧ resetPassword (fun t => t) (fun s => s) (fun _ => "tok") 9000
          [demoUserExpired, demoUserSecond] 7 "np" "np"
        = ([demoUserExpired, demoUserSecond],
            Except.error ⟨"Token is invalid or has expired", 400⟩) := by
  have hh : ∀ u ∈ [demoUserExpired, demoUserSecond],
      u.passwordResetToken ≠ some ((fun t => t) 7)
        ∨ ∀ e, u.passwordResetExpires = some e → e ≤ 9000 := by
    intro u hu
    simp only [List.mem_cons, List.not_mem_nil, or_false] at hu
    rcases hu with rfl | rfl
    · left
      decide
    · left
      decide
  exact ⟨hh,
    resetPassword_invalid_token_uniform_failure (fun t => t) (fun s => s)
      (fun _ => "tok") 9000 [demoUserExpired, demoUserSecond] 7 "np" "np" hh⟩

/-- C5 counterexample: for a user whose reset fields were already set before
the request, a delivery-failing forgotPassword does NOT restore the
pre-request reset state — it clears both fields, so the persisted record
differs from the pre-request record. -/
theorem forgot_rollback_not_restore_counterexample :
    forgotPassword (fun t => t) 5 false 1000 [demoUserPendingReset] "a@b.com"
      = ([{ demoUserPendingReset with
              passwordResetToken := none
              passwordResetExpires := none }],
          Except.error ⟨"There was an Error Sending the email, try again later", 500⟩)
    ∧ ({ demoUserPendingReset with
           passwordResetToken := none
           passwordResetExpires := none } : User)
      ≠ demoUserPendingReset :=
  ⟨rfl, by decide⟩

/-- C5 as amended: on an existing user, a forgotPassword whose email
delivery fails clears the just-stored `passwordResetToken` and
`passwordResetExpires` (setting both to absent, whatever they held before
the request) and fails with the 500 delivery error; the reset fields are
left set only when delivery succeeds. -/
theorem forgot_email_failure_clears (hashTok : Nat → Nat) (randToken now : Nat)
    (store : List User) (email : String) (user : User)
    (hFind : findByEmail store email = some user) :
    ((forgotPassword hashTok randToken false now store email).2
        = Except.error ⟨"There was an Error Sending the email, try again later", 500⟩
      ∧ ∀ u ∈ (forgotPassword hashTok randToken false now store email).1,
          u.id = user.id → u.passwordResetToken = none ∧ u.passwordResetExpires = none)
    ∧ ((forgotPassword hashTok randToken true now store email).2
        = Except.ok ⟨200, "success", "token sent to email", randToken⟩
      ∧ ∀ u ∈ (forgotPassword hashTok randToken true now store email).1,
          u.id = user.id → u.passwordResetToken = some (hashTok randToken)
            ∧ u.passwordResetExpires = some (now + 10 * 60 * 1000)) := by
  constructor
  · constructor
    · simp [forgotPassword, hFind, createPasswordResetToken]
    · intro u hu hid
      simp only [forgotPassword, hFind, createPasswordResetToken] at hu
      rcases saveUser_mem hu with rfl | ⟨hmem, hne⟩
      · exact ⟨rfl, rfl⟩
      · exact absurd hid hne
  · constructor
    · simp [forgotPassword, hFind, createPasswordResetToken]
    · intro u hu hid
      simp only [forgotPassword, hFind, createPasswordResetToken] at hu
      rcases saveUser_mem hu with rfl | ⟨hmem, hne⟩
      · exact ⟨rfl, rfl⟩
      · exact absurd hid hne

theorem forgot_email_failure_clears_witness :
    findByEmail [demoUser] "a@b.com" = some demoUser
      ∧ (((forgotPassword (fun t => t) 5 false 1000 [demoUser] "a@b.com").2
            = Except.error ⟨"There was an Error Sending the email, try again later", 500⟩
          ∧ ∀ u ∈ (forgotPassword (fun t => t) 5 false 1000 [demoUser] "a@b.com").1,
              u.id = demoUser.id →
                u.passwordResetToken = none ∧ u.passwordResetExpires = none)
        ∧ ((forgotPassword (fun t => t) 5 true 1000 [demoUser] "a@b.com").2
            = Except.ok ⟨200, "success", "token sent to email", 5⟩
          ∧ ∀ u ∈ (forgotPassword (fun t => t) 5 true 1000 [demoUser] "a@b.com").1,
              u.id = demoUser.id →
                u.passwordResetToken = some ((fun t => t) 5)
                  ∧ u.passwordResetExpires = some (1000 + 10 * 60 * 1000))) :=
  ⟨by decide,
    forgot_email_failure_clears (fun t => t) 5 1000 [demoUser] "a@b.com" demoUser
      (by decide)⟩

/-- C4: a reset token is single-use. After `forgotPassword` persists the
hash of the fresh random token on the user (delivery succeeding), the first
`resetPassword` with the matching plaintext before expiry succeeds and the
same persisted update clears both `passwordResetToken` and
`passwordResetExpires`; a second `resetPassword` with the same plaintext
then fails and leaves the store unchanged. -/
theorem reset_token_single_use (hashTok : Nat → Nat) (phash : String → String)
    (sign : Nat → String) (tok now1 now2 now3 : Nat) (u : User)
    (pw1 pc1 pw2 pc2 : String)
    (hExp : now2 < now1 + 10 * 60 * 1000) :
    ∃ s1 r1 s2 r2,
      forgotPassword hashTok tok true now1 [u] u.email = (s1, Except.ok r1)
        ∧ r1.resetToken = tok
        ∧ resetPassword hashTok phash sign now2 s1 tok pw1 pc1 = (s2, Except.ok r2)
        ∧ (∀ v ∈ s2, v.passwordResetToken = none ∧ v.passwordResetExpires = none)
        ∧ resetPassword hashTok phash sign now3 s2 tok pw2 pc2
            = (s2, Except.error ⟨"Token is invalid or has expired", 400⟩) := by
  refine ⟨[{ u with
               passwordResetToken := some (hashTok tok)
               passwordResetExpires := some (now1 + 10 * 60 * 1000) }],
          ⟨200, "success", "token sent to email", tok⟩,
          [{ u with
               password := some (phash pw1)
               passwordChangedAt := some now2
               passwordResetToken := none
               passwordResetExpires := none }],
          createAndSendToken sign
            { u with
                password := some (phash pw1)
                passwordChangedAt := some now2
                passwordResetToken := none
                passwordResetExpires := none } 200,
          ?_, rfl, ?_, ?_, ?_⟩
  · simp [forgotPassword, findByEmail, List.find?, createPasswordResetToken, saveUser]
  · simp [resetPassword, resetQueryMatch, List.find?, saveUser, hExp]
  · intro v hv
    simp only [List.mem_singleton] at hv
    subst hv
    exact ⟨rfl, rfl⟩
  · simp [resetPassword, resetQueryMatch, List.find?]

theorem reset_token_single_use_witness :
    (2000 : Nat) < 1000 + 10 * 60 * 1000
      ∧ ∃ s1 r1 s2 r2,
          forgotPassword (fun t => t) 5 true 1000 [demoUser] demoUser.email
              = (s1, Except.ok r1)
            ∧ ForgotResponse.resetToken r1 = 5
            ∧ resetPassword (fun t => t) (fun s => s) (fun _ => "tok") 2000 s1 5
                "np1" "np1" = (s2, Except.ok r2)
            ∧ (∀ v ∈ s2, v.passwordResetToken = none ∧ v.passwordResetExpires = none)
            ∧ resetPassword (fun t => t) (fun s => s) (fun _ => "tok") 2500 s2 5
                "np2" "np2"
              = (s2, Except.error ⟨"Token is invalid or has expired", 400⟩) :=
  ⟨by decide,
    reset_token_single_use (fun t => t) (fun s => s) (fun _ => "tok") 5 1000 2000 2500
      demoUser "np1" "np1" "np2" "np2" (by decide)⟩

/-- C7: every success envelope emitted through `createAndSendToken` — by
signup, login, resetPassword or updatePassword — has the
status / token / data-user shape with body status success, and the user
representation it carries has no password field. -/
theorem success_envelope_strips_password :
    (∀ (validate : SignupBody → Option String) (phash : String → String)
        (sign : Nat → String) (store s : List User) (body : SignupBody)
        (r : AuthResponse),
      signup validate phash sign store body = (s, Except.ok r) →
        r.user.password = none ∧ r.status = "success")
    ∧ (∀ (cmp : String → String → Bool) (sign : Nat → String)
        (store : List User) (email pw : String) (r : AuthResponse),
      login cmp sign store email pw = Except.ok r →
        r.user.password = none ∧ r.status = "success")
    ∧ (∀ (hashTok : Nat → Nat) (phash : String → String) (sign : Nat → String)
        (now : Nat) (store s : List User) (tokenParam : Nat) (pw pc : String)
        (r : AuthResponse),
      resetPassword hashTok phash sign now store tokenParam pw pc = (s, Except.ok r) →
        r.user.password = none ∧ r.status = "success")
    ∧ (∀ (phash : String → String) (cmp : String → String → Bool)
        (sign : Nat → String) (now : Nat) (store s : List User) (uid : Nat)
        (pcur pw pc : String) (r : AuthResponse),
      updatePassword phash cmp sign now store uid pcur pw pc = (s, Except.ok r) →
        r.user.password = none ∧ r.status = "success") := by
  refine ⟨?_, ?_, ?_, ?_⟩
  · intro validate phash sign store s body r heq
    unfold signup at heq
    split at heq
    · simp at heq
    · split at heq
      · simp at heq
      · simp only [Prod.mk.injEq, Except.ok.injEq] at heq
        obtain ⟨-, rfl⟩ := heq
        exact ⟨rfl, rfl⟩
  · intro cmp sign store email pw r heq
    unfold login at heq
    split at heq
    · simp at heq
    · split at heq
      · simp at heq
      · split at heq
        · simp at heq
        · simp only [Except.ok.injEq] at heq
          subst heq
          exact ⟨rfl, rfl⟩
  · intro hashTok phash sign now store s tokenParam pw pc r heq
    simp only [resetPassword] at heq
    split at heq
    · simp at heq
    · simp only [Prod.mk.injEq, Except.ok.injEq] at heq
      obtain ⟨-, rfl⟩ := heq
      exact ⟨rfl, rfl⟩
  · intro phash cmp sign now store s uid pcur pw pc r heq
    unfold updatePassword at heq
    split at heq
    · simp at heq
    · split at heq
      · simp at heq
      · simp only [Prod.mk.injEq, Except.ok.injEq] at heq
        obtain ⟨-, rfl⟩ := heq
        exact ⟨rfl, rfl⟩

theorem success_envelope_strips_password_witness :
    login (fun a b => a == b) (fun _ => "tok") [demoUser] "a@b.com" "secret123"
        = Except.ok (createAndSendToken (fun _ => "tok") demoUser 200)
      ∧ (createAndSendToken (fun _ => "tok") demoUser 200).user.password = none
      ∧ (createAndSendToken (fun _ => "tok") demoUser 200).status = "success" :=
  ⟨rfl,
    success_envelope_strips_password.2.1 (fun a b => a == b) (fun _ => "tok")
      [demoUser] "a@b.com" "secret123" (createAndSendToken (fun _ => "tok") demoUser 200)
      rfl⟩

end Auth
